import Mathlib

/-!
Verification of the residual-boosting forecaster of this repository
(`src/example_package/src/residualboosting/forecaster.py`), its tutorial draft
(`_tutorial_files/forecaster_3.py`), and the notebook plotting helper
(`src/notebooks/utils.py`), via a shallow embedding.

Modelling conventions:
* a time series (`pd.Series`) is a list of rationals; the time index is
  positional, `0, 1, ..., n-1`, so `y.index.get_level_values(-1).unique()`
  is `List.range y.length`;
* a forecasting horizon is a list of time positions;
* the exogenous frame `X` is an opaque optional value of a type parameter;
* a base forecaster is an opaque component: a fitted-state type `σ` together
  with `fit`, `predict` and `update` functions and its capability tags;
  `clone()` producing a fresh unfitted copy is implicit in the functional
  style (fitting never mutates the template);
* Python `ValueError` on construction is `Except.error` with the source's
  message string.
-/

set_option autoImplicit false

namespace ResidualBoosting

abbrev Series := List ℚ

abbrev Horizon := List Nat

/-- The capability tags relevant to `ResidualBoostingForecaster`: the keys of
its `_tags` dict plus `capability:exogenous`, which its `__init__` clones from
the base forecaster. -/
structure Tags where
  yInnerMtype : String
  xInnerMtype : String
  scitypeY : String
  capabilityPredInt : Bool
  capabilityPredIntInsample : Bool
  capabilityInsample : Bool
  capabilityExogenous : Bool
  ignoresExogeneousX : Bool
  requiresFhInFit : Bool
  xyMustHaveSameIndex : Bool
  enforceIndexType : Option String
  handlesMissingData : Bool
  pythonVersion : Option String
  pythonDependencies : Option String
  deriving Repr, DecidableEq

/-- The class-level `_tags` dict of `ResidualBoostingForecaster`
(forecaster.py lines 34-52).  `capability:exogenous` has no entry there; its
pre-clone value comes from the framework default and is immediately
overwritten by `clone_tags` in `__init__`, so the default chosen here
(`true`) is never observable after construction. -/
def compositeDefaultTags : Tags where
  yInnerMtype := "pd.Series"
  xInnerMtype := "pd.DataFrame"
  scitypeY := "univariate"
  capabilityPredInt := false
  capabilityPredIntInsample := false
  capabilityInsample := true
  capabilityExogenous := true
  ignoresExogeneousX := false
  requiresFhInFit := true
  xyMustHaveSameIndex := true
  enforceIndexType := none
  handlesMissingData := false
  pythonVersion := none
  pythonDependencies := none

/-- An opaque deterministic base forecaster, as consumed by the composite:
`σ` is its fitted-state type, `α` the exogenous-frame type.  `fitB` is
`fit(y, X, fh)` returning the fitted state, `predictB` is
`predict(fh, X)` on a fitted state, `updateB` is
`update(y, X, update_params)`. -/
structure BaseForecaster (σ α : Type) where
  tags : Tags
  fitB : Series → Option α → Horizon → σ
  predictB : σ → Horizon → Option α → Series
  updateB : σ → Series → Option α → Bool → σ

/-- The in-sample horizon used by `_fit` and `_update`:
`y.index.get_level_values(-1).unique()`, i.e. every time position of `y`. -/
def insampleFh (y : Series) : Horizon :=
  List.range y.length

/-- State of a constructed `ResidualBoostingForecaster`: the resolved base
forecaster, `num_iter`, the composite's tags after `clone_tags`, and the
fitted attribute `forecasters_` (empty before fit). -/
structure RBForecaster (σ α : Type) where
  base : BaseForecaster σ α
  numIter : Int
  tags : Tags
  forecasters_ : List σ

/-- The `clone_tags` call of `__init__` (forecaster.py lines 80-91): overwrite
the listed tags of the composite with the base forecaster's values. -/
def cloneTags (own fromBase : Tags) : Tags :=
  { own with
    capabilityExogenous := fromBase.capabilityExogenous
    ignoresExogeneousX := fromBase.ignoresExogeneousX
    requiresFhInFit := fromBase.requiresFhInFit
    xyMustHaveSameIndex := fromBase.xyMustHaveSameIndex
    enforceIndexType := fromBase.enforceIndexType
    handlesMissingData := fromBase.handlesMissingData
    pythonVersion := fromBase.pythonVersion
    pythonDependencies := fromBase.pythonDependencies }

/-- `ResidualBoostingForecaster.__init__` after resolution of the default
base forecaster (forecaster.py lines 55-91): raise `ValueError` when the
resolved template lacks `capability:insample`, then when `num_iter < 1`;
otherwise succeed and clone the listed tags from the template. -/
def init {σ α : Type} (base : BaseForecaster σ α) (numIter : Int) :
    Except String (RBForecaster σ α) :=
  if base.tags.capabilityInsample = false then
    Except.error "Base forecaster must have capability:insample"
  else if numIter < 1 then
    Except.error "num_iter must be at least 1"
  else
    Except.ok
      { base := base
        numIter := numIter
        tags := cloneTags compositeDefaultTags base.tags
        forecasters_ := [] }

/-- One iteration of the `_fit` loop (forecaster.py lines 121-132), acting on
the loop state `(timeseries_to_predict, cumulative_preds, forecasters_)`:
clone and fit the base forecaster on the current target, predict in-sample,
add the predictions positionally into `cumulative_preds` (the `.values`
addition), set the next target to `y - cumulative_preds.values`
(positional), and append the fitted clone. -/
def fitStep {σ α : Type} (base : BaseForecaster σ α) (y : Series) (X : Option α)
    (fh : Horizon) (ts cum : Series) (fs : List σ) : Series × Series × List σ :=
  let forecaster := base.fitB ts X fh
  let insamplePreds := base.predictB forecaster (insampleFh y) X
  let cum2 := List.zipWith (· + ·) cum insamplePreds
  let ts2 := List.zipWith (· - ·) y cum2
  (ts2, cum2, fs ++ [forecaster])

/-- The `_fit` loop after `n` rounds, from the initial state
`timeseries_to_predict = y.copy()`, `cumulative_preds = pd.Series(0, index=y.index)`,
`forecasters_ = []` (forecaster.py lines 118-132). -/
def fitIter {σ α : Type} (base : BaseForecaster σ α) (y : Series) (X : Option α)
    (fh : Horizon) : Nat → Series × Series × List σ
  | 0 => (y, List.replicate y.length 0, [])
  | n + 1 =>
    let p := fitIter base y X fh n
    fitStep base y X fh p.1 p.2.1 p.2.2

/-- `ResidualBoostingForecaster._fit`: run the loop `num_iter` times and store
the fitted clones in `forecasters_`. -/
def RBForecaster.fit {σ α : Type} (m : RBForecaster σ α) (y : Series)
    (X : Option α) (fh : Horizon) : RBForecaster σ α :=
  { m with forecasters_ := (fitIter m.base y X fh m.numIter.toNat).2.2 }

/-- The running value of `y_pred` in `_predict`: Python starts from the
integer `0`, modelled as `none`; adding a series to it broadcasts
(`0 + series = series`), and adding two series is positional elementwise
addition. -/
def seriesAdd : Option Series → Series → Option Series
  | none, p => some p
  | some q, p => some (List.zipWith (· + ·) q p)

/-- `ResidualBoostingForecaster._predict` (forecaster.py lines 163-167):
`y_pred = 0`, then `y_pred += forecaster.predict(fh, X)` for every member of
`forecasters_`, in order.  The result is `none` only for an empty ensemble
(where Python would return the integer `0`). -/
def RBForecaster.predictM {σ α : Type} (m : RBForecaster σ α) (fh : Horizon)
    (X : Option α) : Option Series :=
  m.forecasters_.foldl (fun acc f => seriesAdd acc (m.base.predictB f fh X)) none

/-- The `_update` loop (forecaster.py lines 206-218): walk `forecasters_` in
fit order, update each member on the current residual target, recompute its
in-sample predictions, accumulate them, and recompute the target for the
next member. -/
def updateLoop {σ α : Type} (base : BaseForecaster σ α) (y : Series) (X : Option α)
    (updateParams : Bool) : List σ → Series → Series → List σ
  | [], _, _ => []
  | f :: fs, ts, cum =>
    let f2 := base.updateB f ts X updateParams
    let insamplePreds := base.predictB f2 (insampleFh y) X
    let cum2 := List.zipWith (· + ·) cum insamplePreds
    let ts2 := List.zipWith (· - ·) y cum2
    f2 :: updateLoop base y X updateParams fs ts2 cum2

/-- `ResidualBoostingForecaster._update`: starts again from
`timeseries_to_predict = y.copy()` and `cumulative_preds = pd.Series(0, index=y.index)`. -/
def RBForecaster.update {σ α : Type} (m : RBForecaster σ α) (y : Series)
    (X : Option α) (updateParams : Bool) : RBForecaster σ α :=
  { m with
    forecasters_ :=
      updateLoop m.base y X updateParams m.forecasters_ y
        (List.replicate y.length 0) }

/-- One iteration of the `_fit` loop of the tutorial draft
`_tutorial_files/forecaster_3.py` (lines 116-127): no cumulative
accumulator; the next target is `y - insample_preds`, the residual against
the current round's predictions alone. -/
def fitStep3 {σ α : Type} (base : BaseForecaster σ α) (y : Series) (X : Option α)
    (fh : Horizon) (ts : Series) (fs : List σ) : Series × List σ :=
  let forecaster := base.fitB ts X fh
  let insamplePreds := base.predictB forecaster (insampleFh y) X
  let ts2 := List.zipWith (· - ·) y insamplePreds
  (ts2, fs ++ [forecaster])

/-- The `forecaster_3.py` `_fit` loop after `n` rounds. -/
def fitIter3 {σ α : Type} (base : BaseForecaster σ α) (y : Series) (X : Option α)
    (fh : Horizon) : Nat → Series × List σ
  | 0 => (y, [])
  | n + 1 =>
    let p := fitIter3 base y X fh n
    fitStep3 base y X fh p.1 p.2

/-- Modelled from the spec: the reference base learner of the
testable-properties section, which is not part of the source tree — a
forecaster that "performs simple mean-based in-sample/out-of-sample
prediction", i.e. predicts the arithmetic mean of its training series at
every requested time point.  Its fitted state is that mean. -/
def meanForecaster : BaseForecaster ℚ Unit where
  tags := compositeDefaultTags
  fitB := fun y _ _ => y.sum / (y.length : ℚ)
  predictB := fun m fh _ => fh.map fun _ => m
  updateB := fun m y _ updateParams =>
    if updateParams then y.sum / (y.length : ℚ) else m

/-- The training target passed to round `i`'s `fit` call: the value of
`timeseries_to_predict` after `i` iterations of the `_fit` loop (round `0`
receives the initial value `y`). -/
def fitTarget {σ α : Type} (base : BaseForecaster σ α) (y : Series) (X : Option α)
    (fh : Horizon) (i : Nat) : Series :=
  (fitIter base y X fh i).1

/-- The in-sample predictions produced by round `i` of the `_fit` loop. -/
def roundInsamplePreds {σ α : Type} (base : BaseForecaster σ α) (y : Series)
    (X : Option α) (fh : Horizon) (i : Nat) : Series :=
  base.predictB (base.fitB (fitTarget base y X fh i) X fh) (insampleFh y) X

/-- The positionwise sum of the in-sample predictions of rounds `0..i`,
starting from the zero series on `y`'s index. -/
def cumInsamplePreds {σ α : Type} (base : BaseForecaster σ α) (y : Series)
    (X : Option α) (fh : Horizon) (i : Nat) : Series :=
  ((List.range (i + 1)).map (roundInsamplePreds base y X fh)).foldl
    (List.zipWith (· + ·)) (List.replicate y.length 0)

theorem fitIter_cum_succ {σ α : Type} (base : BaseForecaster σ α) (y : Series)
    (X : Option α) (fh : Horizon) (i : Nat) :
    (fitIter base y X fh (i + 1)).2.1 =
      List.zipWith (· + ·) (fitIter base y X fh i).2.1
        (roundInsamplePreds base y X fh i) :=
  rfl

theorem foldl_zipWith_add_range_succ (f : Nat → Series) (init : Series) (n : Nat) :
    ((List.range (n + 1)).map f).foldl (List.zipWith (· + ·)) init =
      List.zipWith (· + ·)
        (((List.range n).map f).foldl (List.zipWith (· + ·)) init) (f n) := by
  rw [List.range_succ, List.map_append, List.foldl_append]
  rfl

theorem cumInsamplePreds_succ {σ α : Type} (base : BaseForecaster σ α) (y : Series)
    (X : Option α) (fh : Horizon) (i : Nat) :
    cumInsamplePreds base y X fh (i + 1) =
      List.zipWith (· + ·) (cumInsamplePreds base y X fh i)
        (roundInsamplePreds base y X fh (i + 1)) := by
  simp only [cumInsamplePreds]
  rw [foldl_zipWith_add_range_succ]

theorem fitIter_cum_eq {σ α : Type} (base : BaseForecaster σ α) (y : Series)
    (X : Option α) (fh : Horizon) :
    ∀ i : Nat, (fitIter base y X fh (i + 1)).2.1 = cumInsamplePreds base y X fh i := by
  intro i
  induction i with
  | zero => rfl
  | succ i ih =>
    rw [fitIter_cum_succ, ih, cumInsamplePreds_succ]

theorem fitIter_forecasters {σ α : Type} (base : BaseForecaster σ α) (y : Series)
    (X : Option α) (fh : Horizon) :
    ∀ n : Nat, (fitIter base y X fh n).2.2 =
      (List.range n).map fun i => base.fitB (fitTarget base y X fh i) X fh := by
  intro n
  induction n with
  | zero => rfl
  | succ n ih =>
    have hstep : (fitIter base y X fh (n + 1)).2.2 =
        (fitIter base y X fh n).2.2 ++
          [base.fitB (fitTarget base y X fh n) X fh] := rfl
    rw [hstep, ih, List.range_succ, List.map_append]
    rfl

/-- C1: in `_fit`, round `0` is fitted on `y` itself and round `i+1` is
fitted on `y` minus the positionwise sum of the in-sample predictions of
rounds `0..i` (the cumulative residual), and the stored ensemble consists of
exactly the clones fitted on these successive targets. -/
theorem C1_fit_cumulative_residual_targets {σ α : Type} (m : RBForecaster σ α)
    (y : Series) (X : Option α) (fh : Horizon) :
    fitTarget m.base y X fh 0 = y ∧
    (∀ i : Nat, fitTarget m.base y X fh (i + 1) =
      List.zipWith (· - ·) y (cumInsamplePreds m.base y X fh i)) ∧
    (m.fit y X fh).forecasters_ =
      (List.range m.numIter.toNat).map
        fun i => m.base.fitB (fitTarget m.base y X fh i) X fh := by
  refine ⟨rfl, fun i => ?_, ?_⟩
  · have h : fitTarget m.base y X fh (i + 1) =
        List.zipWith (· - ·) y (fitIter m.base y X fh (i + 1)).2.1 := rfl
    rw [h, fitIter_cum_eq]
  · exact fitIter_forecasters m.base y X fh m.numIter.toNat

theorem getD_zipWith_add : ∀ (a b : Series) (k : Nat), k < a.length → k < b.length →
    (List.zipWith (· + ·) a b).getD k 0 = a.getD k 0 + b.getD k 0 := by
  intro a
  induction a with
  | nil => intro b k ha hb; simp at ha
  | cons x xs ih =>
    intro b k ha hb
    cases b with
    | nil => simp at hb
    | cons y ys =>
      cases k with
      | zero => rfl
      | succ k =>
        simp only [List.zipWith_cons_cons, List.getD_cons_succ]
        refine ih ys k (Nat.lt_of_succ_lt_succ ?_) (Nat.lt_of_succ_lt_succ ?_)
        · simpa using ha
        · simpa using hb

theorem foldl_seriesAdd_aux {σ : Type} (g : σ → Series) :
    ∀ (fs : List σ) (q : Series), (∀ f ∈ fs, (g f).length = q.length) →
      ∃ out : Series,
        fs.foldl (fun acc f => seriesAdd acc (g f)) (some q) = some out ∧
        out.length = q.length ∧
        ∀ k : Nat, k < q.length →
          out.getD k 0 = q.getD k 0 + (fs.map fun f => (g f).getD k 0).sum := by
  intro fs
  induction fs with
  | nil =>
    intro q _
    exact ⟨q, rfl, rfl, fun k _ => by simp⟩
  | cons f fs ih =>
    intro q hlen
    have hf : (g f).length = q.length := hlen f (List.mem_cons_self f fs)
    have hq2 : (List.zipWith (· + ·) q (g f)).length = q.length := by
      rw [List.length_zipWith, hf, Nat.min_self]
    have hlen2 : ∀ f2 ∈ fs, (g f2).length = (List.zipWith (· + ·) q (g f)).length := by
      intro f2 hmem
      rw [hq2]
      exact hlen f2 (List.mem_cons_of_mem f hmem)
    obtain ⟨out, hfold, hol, hsum⟩ := ih (List.zipWith (· + ·) q (g f)) hlen2
    refine ⟨out, hfold, by rw [hol, hq2], fun k hk => ?_⟩
    have hk2 : k < (List.zipWith (· + ·) q (g f)).length := by rw [hq2]; exact hk
    rw [hsum k hk2, getD_zipWith_add q (g f) k hk (by rw [hf]; exact hk),
      List.map_cons, List.sum_cons, add_assoc]

/-- C2: for a fitted forecaster, `_predict(fh, X)` is exactly the positionwise
sum of the predictions of every member of `forecasters_`, each queried with
the same `fh` and the same `X`; no residual computation happens at predict
time, and in this purely functional embedding `predictM` reads but never
produces a new forecaster state, so `self`, `X` and `fh` are unchanged. -/
theorem C2_predict_is_elementwise_sum {σ α : Type} (m : RBForecaster σ α)
    (fh : Horizon) (X : Option α) (L : Nat) (hne : m.forecasters_ ≠ [])
    (hlen : ∀ f ∈ m.forecasters_, (m.base.predictB f fh X).length = L) :
    (m.predictM fh X).isSome = true ∧
    ((m.predictM fh X).getD []).length = L ∧
    ∀ k : Nat, k < L →
      ((m.predictM fh X).getD []).getD k 0 =
        (m.forecasters_.map fun f => (m.base.predictB f fh X).getD k 0).sum := by
  obtain ⟨f0, fs, hcons⟩ := List.exists_cons_of_ne_nil hne
  have h0 : (m.base.predictB f0 fh X).length = L := by
    refine hlen f0 ?_
    rw [hcons]
    exact List.mem_cons_self f0 fs
  have hlen2 : ∀ f ∈ fs, (m.base.predictB f fh X).length =
      (m.base.predictB f0 fh X).length := by
    intro f hmem
    rw [h0]
    refine hlen f ?_
    rw [hcons]
    exact List.mem_cons_of_mem f0 hmem
  obtain ⟨out, hfold, hol, hsum⟩ :=
    foldl_seriesAdd_aux (fun f => m.base.predictB f fh X) fs
      (m.base.predictB f0 fh X) hlen2
  have hpred : m.predictM fh X = some out := by
    rw [RBForecaster.predictM, hcons]
    exact hfold
  refine ⟨by rw [hpred]; rfl, by rw [hpred]; simpa [h0] using hol, fun k hk => ?_⟩
  have hk0 : k < (m.base.predictB f0 fh X).length := by rw [h0]; exact hk
  rw [hpred, hcons]
  simpa using hsum k hk0

/-- A concrete fitted composite over the mean learner, used to instantiate
hypotheses of the general theorems: two rounds whose fitted states are the
mean `3/2` of `y = [1, 2]` and the mean `0` of the first-round residual. -/
def rbMeanTwo : RBForecaster ℚ Unit where
  base := meanForecaster
  numIter := 2
  tags := compositeDefaultTags
  forecasters_ := [3 / 2, 0]

theorem C2_predict_is_elementwise_sum_witness :
    (rbMeanTwo.predictM [0, 1] none).isSome = true ∧
    ((rbMeanTwo.predictM [0, 1] none).getD []).length = 2 ∧
    ∀ k : Nat, k < 2 →
      ((rbMeanTwo.predictM [0, 1] none).getD []).getD k 0 =
        (rbMeanTwo.forecasters_.map
          fun f => (rbMeanTwo.base.predictB f [0, 1] none).getD k 0).sum :=
  C2_predict_is_elementwise_sum rbMeanTwo [0, 1] none 2 (by decide) (by decide)

/-- Sum of squared residuals of a cumulative prediction against `y`. -/
def sse (y cum : Series) : ℚ :=
  ((List.zipWith (· - ·) y cum).map fun r => r * r).sum

/-- The synthetic series of the spec's testable-properties section. -/
def y10 : Series := [1, 2, 3, 4, 5, 6, 7, 8, 9, 10]

/-- An unfitted composite over the mean learner with `num_iter = 3`. -/
def rbMeanThree : RBForecaster ℚ Unit where
  base := meanForecaster
  numIter := 3
  tags := compositeDefaultTags
  forecasters_ := []

/-- C3: fitting on `y = [1..10]` with the mean-based reference learner and
`num_iter = 3` yields three rounds, and the sum of squared residuals of the
cumulative in-sample prediction never increases from one round to the next
(here it is `165/2` after each of the three rounds). -/
theorem C3_mean_boosting_sse_nonincreasing :
    (rbMeanThree.fit y10 none [1]).forecasters_.length = 3 ∧
    sse y10 ((fitIter meanForecaster y10 none [1] 2).2.1) ≤
      sse y10 ((fitIter meanForecaster y10 none [1] 1).2.1) ∧
    sse y10 ((fitIter meanForecaster y10 none [1] 3).2.1) ≤
      sse y10 ((fitIter meanForecaster y10 none [1] 2).2.1) := by
  with_unfolding_all decide

/-- C4 counterexample: with the mean learner on `y = [1, 2]` and three
rounds, the main `_fit` and the `forecaster_3.py` `_fit` produce different
ensembles (`[3/2, 0, 0]` versus `[3/2, 0, 3/2]`), because their round-2
training targets differ (`[-1/2, 1/2]` versus `[1, 2]`). -/
theorem C4_fit_equivalence_counterexample :
    (fitIter3 meanForecaster [1, 2] none [1] 3).2 ≠
      (fitIter meanForecaster [1, 2] none [1] 3).2.2 ∧
    (fitIter3 meanForecaster [1, 2] none [1] 2).1 ≠
      (fitIter meanForecaster [1, 2] none [1] 2).1 := by
  with_unfolding_all decide

theorem zipWith_sub_add_replicate_zero :
    ∀ (y p : Series),
      List.zipWith (· - ·) y
        (List.zipWith (· + ·) (List.replicate y.length 0) p) =
      List.zipWith (· - ·) y p := by
  intro y
  induction y with
  | nil => intro p; rfl
  | cons a ys ih =>
    intro p
    cases p with
    | nil => rfl
    | cons b ps =>
      simp only [List.length_cons, List.replicate_succ, List.zipWith_cons_cons]
      rw [zero_add, ih]

/-- C4 amended: the two `_fit` procedures agree on the first two rounds — for
`num_iter ≤ 2` they produce identical ensembles for every base forecaster and
input — but from round 2 on they can diverge, since `forecaster_3.py` fits
round `i+1` on `y` minus the round-`i` predictions alone instead of the
cumulative sum. -/
theorem C4_fit_equivalence_first_two_rounds {σ α : Type}
    (base : BaseForecaster σ α) (y : Series) (X : Option α) (fh : Horizon)
    (n : Nat) (h : n ≤ 2) :
    (fitIter3 base y X fh n).2 = (fitIter base y X fh n).2.2 := by
  interval_cases n
  · rfl
  · rfl
  · have h1 : (fitIter3 base y X fh 2).2 =
        [base.fitB y X fh,
         base.fitB
           (List.zipWith (· - ·) y
             (base.predictB (base.fitB y X fh) (insampleFh y) X)) X fh] := rfl
    have h2 : (fitIter base y X fh 2).2.2 =
        [base.fitB y X fh,
         base.fitB
           (List.zipWith (· - ·) y
             (List.zipWith (· + ·) (List.replicate y.length 0)
               (base.predictB (base.fitB y X fh) (insampleFh y) X))) X fh] := rfl
    rw [h1, h2, zipWith_sub_add_replicate_zero]

theorem C4_fit_equivalence_first_two_rounds_witness :
    (fitIter3 meanForecaster [1, 2] none [1] 2).2 =
      (fitIter meanForecaster [1, 2] none [1] 2).2.2 :=
  C4_fit_equivalence_first_two_rounds meanForecaster [1, 2] none [1] 2
    (by decide)

/-- C5: construction succeeds exactly when the resolved template supports
in-sample prediction and `num_iter ≥ 1`, and raises the source's
`ValueError` exactly when it lacks that capability or `num_iter < 1`. -/
theorem C5_init_succeeds_iff {σ α : Type} (base : BaseForecaster σ α)
    (numIter : Int) :
    ((∃ m, init base numIter = Except.ok m) ↔
      (base.tags.capabilityInsample = true ∧ 1 ≤ numIter)) ∧
    ((∃ s, init base numIter = Except.error s) ↔
      (base.tags.capabilityInsample = false ∨ numIter < 1)) := by
  unfold init
  split_ifs with h1 h2
  · constructor
    · constructor
      · rintro ⟨m, hm⟩
        exact absurd hm (by simp)
      · rintro ⟨hcap, _⟩
        rw [h1] at hcap
        exact absurd hcap (by simp)
    · constructor
      · intro _
        exact Or.inl h1
      · intro _
        exact ⟨_, rfl⟩
  · constructor
    · constructor
      · rintro ⟨m, hm⟩
        exact absurd hm (by simp)
      · rintro ⟨_, hle⟩
        omega
    · constructor
      · intro _
        exact Or.inr h2
      · intro _
        exact ⟨_, rfl⟩
  · have h1t : base.tags.capabilityInsample = true := by
      cases hb : base.tags.capabilityInsample
      · exact absurd hb h1
      · rfl
    constructor
    · constructor
      · intro _
        exact ⟨h1t, by omega⟩
      · intro _
        exact ⟨_, rfl⟩
    · constructor
      · rintro ⟨s, hs⟩
        exact absurd hs (by simp)
      · intro hor
        rcases hor with hcap | hlt
        · exact absurd hcap h1
        · exact absurd hlt h2

theorem updateLoop_length {σ α : Type} (base : BaseForecaster σ α) (y : Series)
    (X : Option α) (up : Bool) :
    ∀ (fs : List σ) (ts cum : Series),
      (updateLoop base y X up fs ts cum).length = fs.length := by
  intro fs
  induction fs with
  | nil => intro ts cum; rfl
  | cons f fs ih =>
    intro ts cum
    simp only [updateLoop, List.length_cons]
    rw [ih]

/-- C6: after a fit, `forecasters_` has length exactly `num_iter`, and every
subsequent update preserves the ensemble's length — the loop updates each
existing round in place and neither creates nor removes rounds. -/
theorem C6_ensemble_length_invariant {σ α : Type} (m : RBForecaster σ α)
    (y : Series) (X : Option α) (fh : Horizon) (h : 1 ≤ m.numIter) :
    (((m.fit y X fh).forecasters_.length : Int) = m.numIter) ∧
    ∀ (y2 : Series) (X2 : Option α) (up : Bool),
      ((m.fit y X fh).update y2 X2 up).forecasters_.length =
        (m.fit y X fh).forecasters_.length := by
  constructor
  · have hlen : (m.fit y X fh).forecasters_.length = m.numIter.toNat := by
      show (fitIter m.base y X fh m.numIter.toNat).2.2.length = _
      rw [fitIter_forecasters]
      simp
    rw [hlen]
    omega
  · intro y2 X2 up
    exact updateLoop_length m.base y2 X2 up _ y2 (List.replicate y2.length 0)

theorem C6_ensemble_length_invariant_witness :
    (((rbMeanThree.fit y10 none [1]).forecasters_.length : Int) =
      rbMeanThree.numIter) ∧
    ∀ (y2 : Series) (X2 : Option Unit) (up : Bool),
      ((rbMeanThree.fit y10 none [1]).update y2 X2 up).forecasters_.length =
        (rbMeanThree.fit y10 none [1]).forecasters_.length :=
  C6_ensemble_length_invariant rbMeanThree y10 none [1] (by decide)

/-- C7: with `num_iter = 1`, the fitted composite's prediction at any horizon
is exactly the prediction of a single clone of the base forecaster fitted
directly on the same `y`, `X`, `fh` — one round degenerates to the base
forecaster. -/
theorem C7_single_round_degenerates {σ α : Type} (base : BaseForecaster σ α)
    (tg : Tags) (y : Series) (X : Option α) (fh fh2 : Horizon) :
    (RBForecaster.fit
        { base := base, numIter := 1, tags := tg, forecasters_ := [] }
        y X fh).predictM fh2 X =
      some (base.predictB (base.fitB y X fh) fh2 X) := rfl

theorem updateLoop_no_param_change {σ α : Type} (base : BaseForecaster σ α)
    (y : Series) (X : Option α)
    (hupd : ∀ (f : σ) (ts : Series) (x : Option α), base.updateB f ts x false = f) :
    ∀ (fs : List σ) (ts cum : Series), updateLoop base y X false fs ts cum = fs := by
  intro fs
  induction fs with
  | nil => intro ts cum; rfl
  | cons f fs ih =>
    intro ts cum
    simp only [updateLoop, hupd]
    rw [ih]

/-- C8: given the base forecaster's contract that its own update with
`update_params=False` leaves its fitted state unchanged, the composite's
update with `update_params=False` changes no round's fitted state,
completes, and leaves the ensemble length unchanged; the loop nonetheless
recomputes each round's residual target, threading `ts` and `cum` through
every round. -/
theorem C8_update_without_param_change {σ α : Type} (m : RBForecaster σ α)
    (y : Series) (X : Option α)
    (hupd : ∀ (f : σ) (ts : Series) (x : Option α),
      m.base.updateB f ts x false = f) :
    (m.update y X false).forecasters_ = m.forecasters_ ∧
    (m.update y X false).forecasters_.length = m.forecasters_.length := by
  have h := updateLoop_no_param_change m.base y X hupd m.forecasters_ y
    (List.replicate y.length 0)
  exact ⟨h, congrArg List.length h⟩

theorem C8_update_without_param_change_witness :
    (rbMeanTwo.update y10 none false).forecasters_ = rbMeanTwo.forecasters_ ∧
    (rbMeanTwo.update y10 none false).forecasters_.length =
      rbMeanTwo.forecasters_.length :=
  C8_update_without_param_change rbMeanTwo y10 none (fun _ _ _ => rfl)

/-- C9: after every successful construction, each of the cloned capability
tags of the composite — exogenous handling (both `capability:exogenous` and
`ignores-exogeneous-X`), horizon-at-fit requirement, shared-index
requirement, index-type enforcement, missing-data tolerance, and the
declared python version and dependencies — equals the resolved template's
corresponding tag. -/
theorem C9_capability_tags_cloned {σ α : Type} (base : BaseForecaster σ α)
    (numIter : Int) (m : RBForecaster σ α)
    (h : init base numIter = Except.ok m) :
    m.tags.capabilityExogenous = base.tags.capabilityExogenous ∧
    m.tags.ignoresExogeneousX = base.tags.ignoresExogeneousX ∧
    m.tags.requiresFhInFit = base.tags.requiresFhInFit ∧
    m.tags.xyMustHaveSameIndex = base.tags.xyMustHaveSameIndex ∧
    m.tags.enforceIndexType = base.tags.enforceIndexType ∧
    m.tags.handlesMissingData = base.tags.handlesMissingData ∧
    m.tags.pythonVersion = base.tags.pythonVersion ∧
    m.tags.pythonDependencies = base.tags.pythonDependencies := by
  unfold init at h
  split at h
  · exact absurd h (by simp)
  · split at h
    · exact absurd h (by simp)
    · obtain rfl := Except.ok.inj h
      simp [cloneTags]

/-- The composite produced by constructing over the mean learner with
`num_iter = 2`, used to instantiate the construction-success hypotheses. -/
def rbMeanConstructed : RBForecaster ℚ Unit where
  base := meanForecaster
  numIter := 2
  tags := cloneTags compositeDefaultTags meanForecaster.tags
  forecasters_ := []

theorem C9_capability_tags_cloned_witness :
    rbMeanConstructed.tags.capabilityExogenous =
      meanForecaster.tags.capabilityExogenous ∧
    rbMeanConstructed.tags.ignoresExogeneousX =
      meanForecaster.tags.ignoresExogeneousX ∧
    rbMeanConstructed.tags.requiresFhInFit =
      meanForecaster.tags.requiresFhInFit ∧
    rbMeanConstructed.tags.xyMustHaveSameIndex =
      meanForecaster.tags.xyMustHaveSameIndex ∧
    rbMeanConstructed.tags.enforceIndexType =
      meanForecaster.tags.enforceIndexType ∧
    rbMeanConstructed.tags.handlesMissingData =
      meanForecaster.tags.handlesMissingData ∧
    rbMeanConstructed.tags.pythonVersion =
      meanForecaster.tags.pythonVersion ∧
    rbMeanConstructed.tags.pythonDependencies =
      meanForecaster.tags.pythonDependencies :=
  C9_capability_tags_cloned meanForecaster 2 rbMeanConstructed rfl

end ResidualBoosting

namespace NotebookUtils

/-- `pandas.Index.unique` on the level-0 labels of the training frame's
index: the distinct labels in order of first occurrence. -/
def uniqueFirstOcc (labels : List String) : List String :=
  labels.foldl (fun acc a => if a ∈ acc then acc else acc ++ [a]) []

/-- `available_first_level` of `display_hierarchical_timeseries`
(utils.py lines 45-47). -/
def availableFirstLevel (labels : List String) : List String :=
  uniqueFirstOcc labels

/-- The dropdown's `options` argument (utils.py line 52): every available
level-0 label other than `"__total"`. -/
def firstLevelOptions (labels : List String) : List String :=
  (availableFirstLevel labels).filter (fun o => o ≠ "__total")

/-- The dropdown's initial `value` argument (utils.py line 53):
`available_first_level[0]`, which is `none` only on an empty index (where
Python would raise an index error). -/
def firstLevelValue (labels : List String) : Option String :=
  (availableFirstLevel labels).head?

theorem foldl_uniqueFirstOcc_head :
    ∀ (l acc : List String), acc ≠ [] →
      (l.foldl (fun acc a => if a ∈ acc then acc else acc ++ [a]) acc).head? =
        acc.head? := by
  intro l
  induction l with
  | nil => intro acc _; rfl
  | cons a l ih =>
    intro acc h
    simp only [List.foldl_cons]
    by_cases hmem : a ∈ acc
    · rw [if_pos hmem]
      exact ih acc h
    · rw [if_neg hmem, ih (acc ++ [a]) (by simp)]
      cases acc with
      | nil => exact absurd rfl h
      | cons b bs => rfl

theorem uniqueFirstOcc_head (labels : List String) :
    (uniqueFirstOcc labels).head? = labels.head? := by
  cases labels with
  | nil => rfl
  | cons a rest =>
    show (List.foldl _ [] (a :: rest)).head? = some a
    rw [List.foldl_cons]
    have h0 : (if a ∈ ([] : List String) then ([] : List String)
        else [] ++ [a]) = [a] := by simp
    rw [h0, foldl_uniqueFirstOcc_head rest [a] (by simp)]
    rfl

theorem total_not_mem_options (labels : List String) :
    "__total" ∉ firstLevelOptions labels := by
  intro hmem
  have h2 := (List.mem_filter.mp hmem).2
  simp at h2

/-- C10: the level-0 dropdown never offers `"__total"` among its options,
yet its initial value is always the first unique level-0 label of the
training frame's index (which is the first label overall); so whenever
`"__total"` is that first label, the initial value lies outside the option
list. -/
theorem C10_dropdown_total_first_label_quirk (labels : List String)
    (h : labels ≠ []) :
    "__total" ∉ firstLevelOptions labels ∧
    firstLevelValue labels = (availableFirstLevel labels).head? ∧
    firstLevelValue labels = labels.head? ∧
    (labels.head? = some "__total" →
      ∀ o ∈ firstLevelOptions labels, firstLevelValue labels ≠ some o) := by
  refine ⟨total_not_mem_options labels, rfl, uniqueFirstOcc_head labels,
    fun hfirst o hmem hval => ?_⟩
  have hv : firstLevelValue labels = some "__total" := by
    show (uniqueFirstOcc labels).head? = some "__total"
    rw [uniqueFirstOcc_head labels, hfirst]
  rw [hv] at hval
  obtain rfl := Option.some.inj hval
  exact total_not_mem_options labels hmem

theorem C10_dropdown_total_first_label_quirk_witness :
    "__total" ∉ firstLevelOptions ["__total", "ca"] ∧
    firstLevelValue ["__total", "ca"] =
      (availableFirstLevel ["__total", "ca"]).head? ∧
    firstLevelValue ["__total", "ca"] = (["__total", "ca"] : List String).head? ∧
    ((["__total", "ca"] : List String).head? = some "__total" →
      ∀ o ∈ firstLevelOptions ["__total", "ca"],
        firstLevelValue ["__total", "ca"] ≠ some o) :=
  C10_dropdown_total_first_label_quirk ["__total", "ca"] (by decide)

end NotebookUtils
